import Mathlib

/-!
Verification of the energy simulation engine of the solar dashboard
(`src/app.py`).  The engine is embedded shallowly: irradiance, energy and
battery levels are exact rationals, timestamps are integers (hours), and the
pandas column computations become list computations.  Every definition mirrors
the corresponding lines of `app.py`.
-/

namespace SolarDashboard

/-- Installed capacity in kWp (`app.py` line 12, `CAPACITY_KWP = 1.3`). -/
def CAPACITY_KWP : ℚ := 13 / 10

/-- Maximum battery capacity in kWh (`app.py` line 13, `7.2`). -/
def BATTERY_CAPACITY_KWH : ℚ := 36 / 5

/-- Minimum battery state of charge in kWh (`app.py` line 14, `1.44`). -/
def MIN_BATTERY_KWH : ℚ := 36 / 25

/-- Base load in kW (`app.py` line 65, `LOAD_KW = 0.3`). -/
def LOAD_KW : ℚ := 3 / 10

/-- Panel efficiency factor (the literal `0.18` at `app.py` line 62). -/
def EFFICIENCY : ℚ := 9 / 50

/-- Irradiance profile lookup keyed by (day-of-year, hour-of-day).  The profile
is the association list produced by the groupby-mean at `app.py` line 46; a
key that is absent yields `0`, matching the `reindex` with `fill_value=0.0` at
line 59. -/
def profileQuery (profile : List ((ℕ × ℕ) × ℚ)) (key : ℕ × ℕ) : ℚ :=
  match profile.find? (fun e => e.1 == key) with
  | some e => e.2
  | none => 0

/-- Energy generated for one timestamp: irradiance times capacity times
efficiency, clipped below at zero (`app.py` line 62). -/
def energyGeneratedAt (profile : List ((ℕ × ℕ) × ℚ)) (key : ℕ × ℕ) : ℚ :=
  max (profileQuery profile key * CAPACITY_KWP * EFFICIENCY) 0

/-- Load consumption for one hour-of-day (`app.py` lines 64-72): `LOAD_KW`
for hours 16 to 19, half of it for hour 20, zero otherwise. -/
def loadConsumption (hour : ℕ) : ℚ :=
  if 16 ≤ hour ∧ hour < 20 then LOAD_KW
  else if hour = 20 then LOAD_KW * (1 / 2)
  else 0

/-- One iteration of the battery loop (`app.py` lines 80-98): from the level
entering the interval and the interval's generation and load, the new level
and the applied flow (`battery_change` after clamping). -/
def batteryStep (currentLevel generation load : ℚ) : ℚ × ℚ :=
  let netEnergy := generation - load
  let newLevel := currentLevel + netEnergy
  if BATTERY_CAPACITY_KWH < newLevel then
    (BATTERY_CAPACITY_KWH, netEnergy - (newLevel - BATTERY_CAPACITY_KWH))
  else if newLevel < MIN_BATTERY_KWH then
    (MIN_BATTERY_KWH, netEnergy + (MIN_BATTERY_KWH - newLevel))
  else
    (newLevel, netEnergy)

/-- Levels appended and flows produced by the loop at `app.py` lines 79-98,
one iteration per input (generation, load) row, threading the level. -/
def simAux (level : ℚ) : List (ℚ × ℚ) → List ℚ × List ℚ
  | [] => ([], [])
  | (g, l) :: rest =>
    let s := batteryStep level g l
    let r := simAux s.1 rest
    (s.1 :: r.1, s.2 :: r.2)

/-- Recorded battery columns (`app.py` lines 75-101): the loop runs over all
rows but the last (`range(len(df) - 1)`); the level column is the initial
level followed by the loop's levels, and the flow column is the loop's flows
padded with a trailing `0.0`. -/
def simulate (init : ℚ) (rows : List (ℚ × ℚ)) : List ℚ × List ℚ :=
  let r := simAux init rows.dropLast
  (init :: r.1, r.2 ++ [0])

/-- Generation column of the simulation DataFrame (`app.py` lines 57-62). -/
def generationColumn (profile : List ((ℕ × ℕ) × ℚ)) (timeline : List (ℕ × ℕ)) :
    List ℚ :=
  timeline.map (energyGeneratedAt profile)

/-- Load column of the simulation DataFrame (`app.py` lines 64-72). -/
def loadColumn (timeline : List (ℕ × ℕ)) : List ℚ :=
  timeline.map (fun k => loadConsumption k.2)

/-- Body of the `try` block in `load_pvgis_data` (`app.py` lines 25-106):
build the generation and load columns over the timeline and run the battery
simulation starting from `INITIAL_BATTERY_LEVEL = BATTERY_CAPACITY_KWH`. -/
def pipeline (profile : List ((ℕ × ℕ) × ℚ)) (timeline : List (ℕ × ℕ)) :
    List ℚ × List ℚ :=
  simulate BATTERY_CAPACITY_KWH
    ((generationColumn profile timeline).zip (loadColumn timeline))

/-- The function `load_pvgis_data` with its exception handler (`app.py` lines
19-110).  `none` stands for a raw input whose loading raises (for example a
missing or unreadable CSV file): the handler at lines 108-110 displays the
message and returns an empty DataFrame to the caller. -/
def load_pvgis_data (raw : Option (List ((ℕ × ℕ) × ℚ)))
    (timeline : List (ℕ × ℕ)) : List ℚ × List ℚ :=
  match raw with
  | none => ([], [])
  | some profile => pipeline profile timeline

/-- Index of the first element minimizing the absolute distance to `t`,
modelling `(df.index.to_series() - current_time_dt).abs().idxmin()` at
`app.py` line 210; pandas `idxmin` returns the first occurrence of the
minimum. -/
def idxminAbs (t : ℤ) : List ℤ → ℕ
  | [] => 0
  | [_] => 0
  | x :: y :: rest =>
    if |x - t| ≤ |(y :: rest).getD (idxminAbs t (y :: rest)) 0 - t| then 0
    else idxminAbs t (y :: rest) + 1

/-- Nearest-hour lookup in `main` (`app.py` lines 195-214): a query before the
first timestamp gives index 0 with the boundary warning, one past the last
timestamp gives the last index with the warning, otherwise the first index of
minimal absolute distance with no warning. -/
def nearestIndex (times : List ℤ) (t : ℤ) : ℕ × Bool :=
  if t < times.getD 0 0 then (0, true)
  else if times.getD (times.length - 1) 0 < t then (times.length - 1, true)
  else (idxminAbs t times, false)

/-- Timeline of the constant-irradiance scenario: 24 hourly keys of one day. -/
def scenarioTimeline : List (ℕ × ℕ) :=
  [(1, 0), (1, 1), (1, 2), (1, 3), (1, 4), (1, 5), (1, 6), (1, 7), (1, 8),
   (1, 9), (1, 10), (1, 11), (1, 12), (1, 13), (1, 14), (1, 15), (1, 16),
   (1, 17), (1, 18), (1, 19), (1, 20), (1, 21), (1, 22), (1, 23)]

/-- Profile of the scenario: irradiance constant at 0.5 kW per square metre
for every hour of the day. -/
def scenarioProfile : List ((ℕ × ℕ) × ℚ) :=
  scenarioTimeline.map (fun k => (k, 1 / 2))

/-- Rows (generation, load) of the scenario day. -/
def scenarioRows : List (ℚ × ℚ) :=
  (generationColumn scenarioProfile scenarioTimeline).zip
    (loadColumn scenarioTimeline)

/-! Helper lemmas about the battery step and the simulation loop. -/

lemma MIN_le_CAP : MIN_BATTERY_KWH ≤ BATTERY_CAPACITY_KWH := by
  norm_num [MIN_BATTERY_KWH, BATTERY_CAPACITY_KWH]

lemma batteryStep_fst_conserve (c g l : ℚ) :
    (batteryStep c g l).1 = c + (batteryStep c g l).2 := by
  simp only [batteryStep]
  split_ifs <;> ring

lemma batteryStep_fst_bounds (c g l : ℚ) :
    MIN_BATTERY_KWH ≤ (batteryStep c g l).1 ∧
    (batteryStep c g l).1 ≤ BATTERY_CAPACITY_KWH := by
  simp only [batteryStep]
  split_ifs with h1 h2
  · exact ⟨MIN_le_CAP, le_refl _⟩
  · exact ⟨le_refl _, MIN_le_CAP⟩
  · dsimp only
    exact ⟨by linarith, by linarith⟩

lemma simAux_length (rows : List (ℚ × ℚ)) :
    ∀ level : ℚ, (simAux level rows).1.length = rows.length ∧
      (simAux level rows).2.length = rows.length := by
  induction rows with
  | nil => intro level; simp [simAux]
  | cons r rest ih =>
    intro level
    obtain ⟨g, l⟩ := r
    simp only [simAux, List.length_cons]
    exact ⟨by rw [(ih _).1], by rw [(ih _).2]⟩

lemma simAux_mem_bounds (rows : List (ℚ × ℚ)) :
    ∀ (level : ℚ) (x : ℚ), x ∈ (simAux level rows).1 →
      MIN_BATTERY_KWH ≤ x ∧ x ≤ BATTERY_CAPACITY_KWH := by
  induction rows with
  | nil => intro level x hx; simp [simAux] at hx
  | cons r rest ih =>
    intro level x hx
    obtain ⟨g, l⟩ := r
    simp only [simAux, List.mem_cons] at hx
    rcases hx with rfl | hx
    · exact batteryStep_fst_bounds level g l
    · exact ih _ x hx

lemma simAux_conserve (rows : List (ℚ × ℚ)) :
    ∀ (level : ℚ) (i : ℕ), i < rows.length →
    (level :: (simAux level rows).1).getD (i + 1) 0 =
      (level :: (simAux level rows).1).getD i 0 +
        (simAux level rows).2.getD i 0 := by
  induction rows with
  | nil => intro level i h; simp at h
  | cons r rest ih =>
    intro level i h
    obtain ⟨g, l⟩ := r
    cases i with
    | zero =>
      simp only [simAux, List.getD_cons_succ, List.getD_cons_zero]
      exact batteryStep_fst_conserve level g l
    | succ k =>
      simp only [simAux, List.getD_cons_succ]
      exact ih (batteryStep level g l).1 k (by simpa using h)

lemma simAux_step (rows : List (ℚ × ℚ)) :
    ∀ (level : ℚ) (i : ℕ), i < rows.length →
    (simAux level rows).1.getD i 0 =
      (batteryStep ((level :: (simAux level rows).1).getD i 0)
        (rows.getD i (0, 0)).1 (rows.getD i (0, 0)).2).1 ∧
    (simAux level rows).2.getD i 0 =
      (batteryStep ((level :: (simAux level rows).1).getD i 0)
        (rows.getD i (0, 0)).1 (rows.getD i (0, 0)).2).2 := by
  induction rows with
  | nil => intro level i h; simp at h
  | cons r rest ih =>
    intro level i h
    obtain ⟨g, l⟩ := r
    cases i with
    | zero =>
      simp only [simAux, List.getD_cons_zero]
      trivial
    | succ k =>
      simp only [simAux, List.getD_cons_succ]
      exact ih (batteryStep level g l).1 k (by simpa using h)

/-! Helper lemmas about the irradiance profile and the scenario. -/

lemma profileQuery_const (p : List ((ℕ × ℕ) × ℚ)) (c : ℚ)
    (hval : ∀ e ∈ p, e.2 = c) (k : ℕ × ℕ) (hk : k ∈ p.map Prod.fst) :
    profileQuery p k = c := by
  induction p with
  | nil => simp at hk
  | cons e rest ih =>
    by_cases h : e.1 = k
    · have hfind : List.find? (fun x => x.1 == k) (e :: rest) = some e :=
        List.find?_cons_of_pos _ (by simp [h])
      simp only [profileQuery, hfind]
      exact hval e (List.mem_cons_self e rest)
    · have hfind : List.find? (fun x => x.1 == k) (e :: rest) =
          List.find? (fun x => x.1 == k) rest :=
        List.find?_cons_of_neg _ (by simp [h])
      simp only [profileQuery, hfind]
      have ihres := ih (fun x hx => hval x (List.mem_cons_of_mem e hx)) ?_
      · simpa only [profileQuery] using ihres
      · rcases List.mem_map.mp hk with ⟨a, ha, rfl⟩
        rcases List.mem_cons.mp ha with rfl | ha2
        · exact absurd rfl h
        · exact List.mem_map.mpr ⟨a, ha2, rfl⟩

lemma scenario_generation :
    generationColumn scenarioProfile scenarioTimeline =
    List.replicate 24 ((117 : ℚ) / 1000) := by
  have hpt : ∀ k ∈ scenarioTimeline,
      energyGeneratedAt scenarioProfile k = (117 : ℚ) / 1000 := by
    intro k hk
    have hq : profileQuery scenarioProfile k = 1 / 2 := by
      apply profileQuery_const
      · intro e he
        simp only [scenarioProfile, List.mem_map] at he
        obtain ⟨a, _, rfl⟩ := he
        rfl
      · simpa [scenarioProfile, List.map_map, Function.comp] using hk
    rw [energyGeneratedAt, hq]
    norm_num [CAPACITY_KWP, EFFICIENCY]
  rw [generationColumn, List.map_congr_left hpt]
  rfl

lemma scenario_load :
    loadColumn scenarioTimeline =
    [0, 0, 0, 0, 0, 0, 0, 0, 0, 0, 0, 0, 0, 0, 0, 0,
     (3 : ℚ) / 10, 3 / 10, 3 / 10, 3 / 10, 3 / 20, 0, 0, 0] := by
  simp [loadColumn, scenarioTimeline, loadConsumption, LOAD_KW]
  norm_num

lemma scenarioRows_eq :
    scenarioRows =
    [((117 : ℚ) / 1000, 0), (117 / 1000, 0), (117 / 1000, 0), (117 / 1000, 0),
     (117 / 1000, 0), (117 / 1000, 0), (117 / 1000, 0), (117 / 1000, 0),
     (117 / 1000, 0), (117 / 1000, 0), (117 / 1000, 0), (117 / 1000, 0),
     (117 / 1000, 0), (117 / 1000, 0), (117 / 1000, 0), (117 / 1000, 0),
     (117 / 1000, 3 / 10), (117 / 1000, 3 / 10), (117 / 1000, 3 / 10),
     (117 / 1000, 3 / 10), (117 / 1000, 3 / 20), (117 / 1000, 0),
     (117 / 1000, 0), (117 / 1000, 0)] := by
  rw [scenarioRows, scenario_generation, scenario_load]
  rfl

/-! Helper lemmas about the nearest-timestamp lookup. -/

lemma chain_first_le_last (times : List ℤ) (hs : List.Chain' (· < ·) times)
    (hne : times ≠ []) :
    times.getD 0 0 ≤ times.getD (times.length - 1) 0 := by
  induction times with
  | nil => simp at hne
  | cons x rest ih =>
    cases rest with
    | nil => simp
    | cons y rest' =>
      have h1 : x < y := (List.chain'_cons.mp hs).1
      have h2 := ih (List.chain'_cons.mp hs).2 (by simp)
      simp only [List.getD_cons_zero, List.length_cons] at h2 ⊢
      have hidx : rest'.length + 1 + 1 - 1 = rest'.length + 1 := by omega
      rw [hidx, List.getD_cons_succ]
      have hidx2 : rest'.length + 1 - 1 = rest'.length := by omega
      rw [hidx2] at h2
      linarith

lemma idxminAbs_lt_length (t : ℤ) (xs : List ℤ) (h : xs ≠ []) :
    idxminAbs t xs < xs.length := by
  induction xs with
  | nil => simp at h
  | cons x rest ih =>
    cases rest with
    | nil => simp [idxminAbs]
    | cons y rest' =>
      rw [idxminAbs]
      split
      · simp
      · have := ih (by simp)
        simp only [List.length_cons] at this ⊢
        omega

lemma idxminAbs_min (t : ℤ) (xs : List ℤ) :
    ∀ j < xs.length, |xs.getD (idxminAbs t xs) 0 - t| ≤ |xs.getD j 0 - t| := by
  induction xs with
  | nil => intro j hj; simp at hj
  | cons x rest ih =>
    cases rest with
    | nil =>
      intro j hj
      have : j = 0 := by simpa using hj
      subst this
      simp [idxminAbs]
    | cons y rest' =>
      intro j hj
      by_cases h : |x - t| ≤ |(y :: rest').getD (idxminAbs t (y :: rest')) 0 - t|
      · rw [idxminAbs, if_pos h]
        cases j with
        | zero => simp
        | succ k =>
          simp only [List.getD_cons_zero, List.getD_cons_succ]
          exact le_trans h (ih k (by simpa using hj))
      · rw [idxminAbs, if_neg h]
        cases j with
        | zero =>
          simp only [List.getD_cons_succ, List.getD_cons_zero]
          exact le_of_lt (lt_of_not_le h)
        | succ k =>
          simp only [List.getD_cons_succ]
          exact ih k (by simpa using hj)

lemma idxminAbs_first (t : ℤ) (xs : List ℤ) :
    ∀ j < xs.length, |xs.getD j 0 - t| ≤ |xs.getD (idxminAbs t xs) 0 - t| →
      idxminAbs t xs ≤ j := by
  induction xs with
  | nil => intro j hj; simp at hj
  | cons x rest ih =>
    cases rest with
    | nil =>
      intro j _ _
      simp [idxminAbs]
    | cons y rest' =>
      intro j hj hle
      by_cases h : |x - t| ≤ |(y :: rest').getD (idxminAbs t (y :: rest')) 0 - t|
      · rw [idxminAbs, if_pos h]
        exact Nat.zero_le j
      · rw [idxminAbs, if_neg h]
        rw [idxminAbs, if_neg h] at hle
        cases j with
        | zero =>
          exfalso
          simp only [List.getD_cons_zero, List.getD_cons_succ] at hle
          exact h hle
        | succ k =>
          simp only [List.getD_cons_succ] at hle
          have := ih k (by simpa using hj) hle
          omega

/-! Claim theorems. -/

/-- C1: for every configuration whose initial battery level lies within the
bound, every recorded battery level of the simulation timeline satisfies
`MIN_BATTERY_KWH ≤ level ≤ BATTERY_CAPACITY_KWH`, with the constants equal to
1.44 and 7.2 kWh; the clamping step preserves the bound at every interval. -/
theorem c1_battery_level_bounds (init : ℚ) (rows : List (ℚ × ℚ))
    (h1 : MIN_BATTERY_KWH ≤ init) (h2 : init ≤ BATTERY_CAPACITY_KWH) :
    MIN_BATTERY_KWH = 144 / 100 ∧ BATTERY_CAPACITY_KWH = 72 / 10 ∧
    ∀ lvl ∈ (simulate init rows).1,
      MIN_BATTERY_KWH ≤ lvl ∧ lvl ≤ BATTERY_CAPACITY_KWH := by
  refine ⟨by norm_num [MIN_BATTERY_KWH], by norm_num [BATTERY_CAPACITY_KWH], ?_⟩
  intro lvl hl
  simp only [simulate, List.mem_cons] at hl
  rcases hl with rfl | hl
  · exact ⟨h1, h2⟩
  · exact simAux_mem_bounds _ _ lvl hl

/-- Witness for C1 at the concrete input `init = 36/5`,
`rows = [(0, 3/10), (0, 0)]`, taking the second recorded level 69/10. -/
theorem c1_witness :
    MIN_BATTERY_KWH ≤ (36 : ℚ) / 5 ∧ (36 : ℚ) / 5 ≤ BATTERY_CAPACITY_KWH ∧
    (MIN_BATTERY_KWH ≤ ((69 : ℚ) / 10) ∧ ((69 : ℚ) / 10) ≤ BATTERY_CAPACITY_KWH) := by
  refine ⟨by norm_num [MIN_BATTERY_KWH], by norm_num [BATTERY_CAPACITY_KWH], ?_⟩
  exact (c1_battery_level_bounds ((36 : ℚ) / 5) [(0, 3 / 10), (0, 0)]
    (by norm_num [MIN_BATTERY_KWH]) (by norm_num [BATTERY_CAPACITY_KWH])).2.2
    ((69 : ℚ) / 10)
    (by norm_num [simulate, simAux, batteryStep,
      BATTERY_CAPACITY_KWH, MIN_BATTERY_KWH])

/-- C2: energy conservation per step: for every index `i > 0` of the produced
timeline, `batteryLevel[i] = batteryLevel[i-1] + batteryPowerFlow[i-1]`, where
the flow column holds the clamped applied flow. -/
theorem c2_energy_conservation (init : ℚ) (rows : List (ℚ × ℚ)) (i : ℕ)
    (h0 : 0 < i) (h : i < (simulate init rows).1.length) :
    (simulate init rows).1.getD i 0 =
      (simulate init rows).1.getD (i - 1) 0 +
      (simulate init rows).2.getD (i - 1) 0 := by
  obtain ⟨j, rfl⟩ : ∃ j, i = j + 1 := ⟨i - 1, by omega⟩
  have hj : j < (simAux init rows.dropLast).1.length := by
    simpa [simulate] using h
  have hj' : j < rows.dropLast.length := by
    rw [← (simAux_length rows.dropLast init).1]
    exact hj
  have hj2 : j < (simAux init rows.dropLast).2.length := by
    rw [(simAux_length rows.dropLast init).2]
    exact hj'
  simp only [simulate, Nat.add_sub_cancel]
  rw [List.getD_append _ _ _ _ hj2]
  exact simAux_conserve rows.dropLast init j hj'

/-- Witness for C2 at `init = 36/5`, `rows = [(0, 3/10), (0, 0)]`, `i = 1`. -/
theorem c2_witness :
    (0 : ℕ) < 1 ∧
    1 < (simulate ((36 : ℚ) / 5) [(0, 3 / 10), (0, 0)]).1.length ∧
    (simulate ((36 : ℚ) / 5) [(0, 3 / 10), (0, 0)]).1.getD 1 0 =
      (simulate ((36 : ℚ) / 5) [(0, 3 / 10), (0, 0)]).1.getD 0 0 +
      (simulate ((36 : ℚ) / 5) [(0, 3 / 10), (0, 0)]).2.getD 0 0 := by
  refine ⟨by norm_num, by norm_num [simulate, simAux], ?_⟩
  exact c2_energy_conservation ((36 : ℚ) / 5) [(0, 3 / 10), (0, 0)] 1
    (by norm_num) (by norm_num [simulate, simAux])

/-- C3 counterexample: at the concrete input `init = 36/5`,
`rows = [(0, 3/10), (0, 0)]`, row 0 of the output does not record the
resulting new level of interval 0 (the code records the level entering the
interval: 36/5 rather than 69/10). -/
theorem c3_counterexample :
    ¬ ((simulate ((36 : ℚ) / 5) [(0, 3 / 10), (0, 0)]).1.getD 0 0 =
       (batteryStep ((36 : ℚ) / 5) 0 (3 / 10)).1) := by
  norm_num [simulate, simAux, batteryStep, BATTERY_CAPACITY_KWH, MIN_BATTERY_KWH]

/-- C3 amended: row 0 records the initial level; for every interval `i` with
`i + 1 < N`, row `i + 1` records the new level produced by the transition rule
of interval `i` applied to the level recorded at row `i`, and row `i` records
the applied flow of interval `i`. -/
theorem c3_recording (init : ℚ) (rows : List (ℚ × ℚ)) (i : ℕ)
    (h : i + 1 < rows.length) :
    (simulate init rows).1.getD 0 0 = init ∧
    (simulate init rows).1.getD (i + 1) 0 =
      (batteryStep ((simulate init rows).1.getD i 0)
        (rows.getD i (0, 0)).1 (rows.getD i (0, 0)).2).1 ∧
    (simulate init rows).2.getD i 0 =
      (batteryStep ((simulate init rows).1.getD i 0)
        (rows.getD i (0, 0)).1 (rows.getD i (0, 0)).2).2 := by
  have hd : i < rows.dropLast.length := by
    simp only [List.length_dropLast]
    omega
  have hrow : rows.dropLast.getD i (0, 0) = rows.getD i (0, 0) := by
    rw [List.getD_eq_getElem _ _ hd, List.getD_eq_getElem _ _ (by omega)]
    exact List.getElem_dropLast rows i hd
  have hflow : i < (simAux init rows.dropLast).2.length := by
    rw [(simAux_length rows.dropLast init).2]
    exact hd
  obtain ⟨hs1, hs2⟩ := simAux_step rows.dropLast init i hd
  rw [hrow] at hs1 hs2
  refine ⟨by simp [simulate], ?_, ?_⟩
  · simpa only [simulate, List.getD_cons_succ] using hs1
  · simp only [simulate]
    rw [List.getD_append _ _ _ _ hflow]
    exact hs2

/-- Witness for C3 at `init = 36/5`, `rows = [(0, 3/10), (0, 0)]`, `i = 0`. -/
theorem c3_witness :
    (0 : ℕ) + 1 < ([((0 : ℚ), (3 : ℚ) / 10), (0, 0)]).length ∧
    ((simulate ((36 : ℚ) / 5) [(0, 3 / 10), (0, 0)]).1.getD 0 0 = 36 / 5 ∧
     (simulate ((36 : ℚ) / 5) [(0, 3 / 10), (0, 0)]).1.getD (0 + 1) 0 =
       (batteryStep ((simulate ((36 : ℚ) / 5) [(0, 3 / 10), (0, 0)]).1.getD 0 0)
         (([((0 : ℚ), (3 : ℚ) / 10), (0, 0)]).getD 0 (0, 0)).1
         (([((0 : ℚ), (3 : ℚ) / 10), (0, 0)]).getD 0 (0, 0)).2).1 ∧
     (simulate ((36 : ℚ) / 5) [(0, 3 / 10), (0, 0)]).2.getD 0 0 =
       (batteryStep ((simulate ((36 : ℚ) / 5) [(0, 3 / 10), (0, 0)]).1.getD 0 0)
         (([((0 : ℚ), (3 : ℚ) / 10), (0, 0)]).getD 0 (0, 0)).1
         (([((0 : ℚ), (3 : ℚ) / 10), (0, 0)]).getD 0 (0, 0)).2).2) :=
  ⟨by norm_num, c3_recording ((36 : ℚ) / 5) [(0, 3 / 10), (0, 0)] 0 (by norm_num)⟩

/-- C4 counterexample: at `init = 36/5`, `rows = [(0, 0), (0, 3/10)]`, the last
row's recorded flow (0) is not the clamped applied flow derived from the last
row's generation and load (-3/10): the loop never computes the final
interval's flow and the column is padded with 0. -/
theorem c4_counterexample :
    ¬ ((simulate ((36 : ℚ) / 5) [(0, 0), (0, 3 / 10)]).2.getD 1 1 =
       (batteryStep ((simulate ((36 : ℚ) / 5) [(0, 0), (0, 3 / 10)]).1.getD 1 0)
         0 (3 / 10)).2) := by
  norm_num [simulate, simAux, batteryStep, BATTERY_CAPACITY_KWH, MIN_BATTERY_KWH]

/-- C4 amended: an `N`-length timeline produces exactly `N` recorded levels
and `N` recorded flows, but the final interval's flow is not computed by the
transition rule: the last recorded flow is the padding value 0. -/
theorem c4_row_count (init : ℚ) (rows : List (ℚ × ℚ)) (h : rows ≠ []) :
    (simulate init rows).1.length = rows.length ∧
    (simulate init rows).2.length = rows.length ∧
    (simulate init rows).2.getLast? = some 0 := by
  have hlen : rows.dropLast.length = rows.length - 1 := List.length_dropLast rows
  have hpos : 0 < rows.length := List.length_pos.mpr h
  refine ⟨?_, ?_, ?_⟩
  · simp only [simulate, List.length_cons, (simAux_length rows.dropLast init).1, hlen]
    omega
  · simp only [simulate, List.length_append, (simAux_length rows.dropLast init).2,
      hlen, List.length_cons, List.length_nil]
    omega
  · simp only [simulate]
    rw [List.getLast?_concat]

/-- Witness for C4 at `init = 36/5`, `rows = [(0, 0)]`. -/
theorem c4_witness :
    ([((0 : ℚ), (0 : ℚ))] : List (ℚ × ℚ)) ≠ [] ∧
    (simulate ((36 : ℚ) / 5) [(0, 0)]).1.length = ([((0 : ℚ), (0 : ℚ))]).length ∧
    (simulate ((36 : ℚ) / 5) [(0, 0)]).2.length = ([((0 : ℚ), (0 : ℚ))]).length ∧
    (simulate ((36 : ℚ) / 5) [(0, 0)]).2.getLast? = some 0 :=
  ⟨by simp, c4_row_count ((36 : ℚ) / 5) [(0, 0)] (by simp)⟩

/-- C5: in the concrete scenario (capacity 1.3 kWp, efficiency 0.18, battery
7.2/1.44 kWh, initial level 7.2, hourly cadence, constant irradiance 0.5,
load 0.3 kW for hours 16 to 19 and 0.15 kW for hour 20), every hour's
generation is 0.117 kWh; the level entering hour 16 is 7.2, and the hour-16
step yields net energy -0.183, applied flow -0.183, new level 7.017, as
recorded in the output columns. -/
theorem c5_scenario :
    generationColumn scenarioProfile scenarioTimeline =
      List.replicate 24 ((117 : ℚ) / 1000) ∧
    ((117 : ℚ) / 1000) - 3 / 10 = -(183 / 1000) ∧
    (simulate BATTERY_CAPACITY_KWH scenarioRows).1.getD 16 0 = 36 / 5 ∧
    batteryStep (36 / 5) (117 / 1000) (3 / 10) = (7017 / 1000, -(183 / 1000)) ∧
    (simulate BATTERY_CAPACITY_KWH scenarioRows).2.getD 16 0 = -(183 / 1000) ∧
    (simulate BATTERY_CAPACITY_KWH scenarioRows).1.getD 17 0 = 7017 / 1000 := by
  refine ⟨scenario_generation, by norm_num,
    ?_, by norm_num [batteryStep, BATTERY_CAPACITY_KWH, MIN_BATTERY_KWH], ?_, ?_⟩ <;>
    rw [scenarioRows_eq] <;>
    norm_num [simulate, simAux, batteryStep, BATTERY_CAPACITY_KWH,
      MIN_BATTERY_KWH, List.dropLast]

/-- C6: each generation column entry equals the profile irradiance at the
timestamp's (day-of-year, hour-of-day) key times capacity times efficiency,
floored at zero, hence no entry is negative. -/
theorem c6_generation_formula (profile : List ((ℕ × ℕ) × ℚ))
    (timeline : List (ℕ × ℕ)) :
    generationColumn profile timeline =
      timeline.map
        (fun k => max (profileQuery profile k * CAPACITY_KWP * EFFICIENCY) 0) ∧
    ∀ g ∈ generationColumn profile timeline, 0 ≤ g := by
  refine ⟨rfl, ?_⟩
  intro g hg
  simp only [generationColumn, List.mem_map] at hg
  obtain ⟨k, _, rfl⟩ := hg
  exact le_max_right _ _

/-- Witness for C6 at the one-entry profile and one-key timeline. -/
theorem c6_witness : (0 : ℚ) ≤ energyGeneratedAt [((1, 2), 1 / 2)] (1, 2) :=
  (c6_generation_formula [((1, 2), 1 / 2)] [(1, 2)]).2 _
    (by simp [generationColumn])

/-- C7: querying the irradiance profile at a key never observed in the input
returns 0 (and is total, hence never fails). -/
theorem c7_unseen_key_zero (profile : List ((ℕ × ℕ) × ℚ)) (key : ℕ × ℕ)
    (h : key ∉ profile.map Prod.fst) : profileQuery profile key = 0 := by
  have hfind : profile.find? (fun e => e.1 == key) = none := by
    rw [List.find?_eq_none]
    intro e he
    simp only [beq_iff_eq]
    intro hk
    exact h (List.mem_map.mpr ⟨e, he, hk⟩)
  simp only [profileQuery, hfind]

/-- Witness for C7 at the profile `[((1,0), 1/2)]` and unseen key `(2,5)`. -/
theorem c7_witness :
    ((2, 5) : ℕ × ℕ) ∉ ([(((1 : ℕ), (0 : ℕ)), (1 : ℚ) / 2)]).map Prod.fst ∧
    profileQuery [(((1 : ℕ), (0 : ℕ)), (1 : ℚ) / 2)] (2, 5) = 0 :=
  ⟨by simp, c7_unseen_key_zero _ _ (by simp)⟩

/-- C8: on a sorted, non-empty timeline, a query before the first timestamp
returns index 0 with the boundary-clamped flag set, and a query after the
last timestamp returns the last index with the flag set. -/
theorem c8_boundary_clamp (times : List ℤ) (t₁ t₂ : ℤ)
    (hs : List.Chain' (· < ·) times) (hne : times ≠ [])
    (h1 : t₁ < times.getD 0 0) (h2 : times.getD (times.length - 1) 0 < t₂) :
    nearestIndex times t₁ = (0, true) ∧
    nearestIndex times t₂ = (times.length - 1, true) := by
  constructor
  · rw [nearestIndex, if_pos h1]
  · have hle := chain_first_le_last times hs hne
    rw [nearestIndex, if_neg (by omega), if_pos h2]

/-- Witness for C8 on the timeline `[0, 1, 2]`, with a query before the start
and a query 10000 hours past the end. -/
theorem c8_witness :
    List.Chain' (· < ·) [(0 : ℤ), 1, 2] ∧
    nearestIndex [(0 : ℤ), 1, 2] (-5) = (0, true) ∧
    nearestIndex [(0 : ℤ), 1, 2] 10002 = (2, true) := by
  have h := c8_boundary_clamp [(0 : ℤ), 1, 2] (-5) 10002
    (by norm_num [List.chain'_cons]) (by simp) (by decide) (by decide)
  exact ⟨by norm_num [List.chain'_cons], h.1, by simpa using h.2⟩

/-- C9: on a sorted, non-empty timeline, for a query strictly between the
first and last timestamps the lookup takes the no-warning branch and returns
an in-range index minimizing the absolute distance to the query, and any index
whose distance is no larger is at or after the returned one (so exact ties go
to the earlier index). -/
theorem c9_nearest_minimal (times : List ℤ) (t : ℤ)
    (_hs : List.Chain' (· < ·) times) (hne : times ≠ [])
    (h1 : times.getD 0 0 < t) (h2 : t < times.getD (times.length - 1) 0) :
    nearestIndex times t = (idxminAbs t times, false) ∧
    idxminAbs t times < times.length ∧
    ∀ j < times.length,
      |times.getD (idxminAbs t times) 0 - t| ≤ |times.getD j 0 - t| ∧
      (|times.getD j 0 - t| ≤ |times.getD (idxminAbs t times) 0 - t| →
        idxminAbs t times ≤ j) := by
  refine ⟨?_, idxminAbs_lt_length t times hne,
    fun j hj => ⟨idxminAbs_min t times j hj, idxminAbs_first t times j hj⟩⟩
  rw [nearestIndex, if_neg (by omega), if_neg (by omega)]

/-- Witness for C9 on the timeline `[0, 2]` with the equidistant query 1:
the lookup returns the earlier index. -/
theorem c9_witness :
    nearestIndex [(0 : ℤ), 2] 1 = (idxminAbs 1 [(0 : ℤ), 2], false) ∧
    idxminAbs 1 [(0 : ℤ), 2] < 2 ∧
    |([(0 : ℤ), 2]).getD (idxminAbs 1 [(0 : ℤ), 2]) 0 - 1| ≤
      |([(0 : ℤ), 2]).getD 1 0 - 1| ∧
    idxminAbs 1 [(0 : ℤ), 2] ≤ 1 := by
  have h := c9_nearest_minimal [(0 : ℤ), 2] 1 (by norm_num [List.chain'_cons])
    (by simp) (by decide) (by decide)
  have h1 := h.2.2 1 (by decide)
  exact ⟨h.1, by simpa using h.2.1, h1.1, h1.2 (by decide)⟩

/-- C10 counterexample: when loading the raw data fails (missing input), the
error is not surfaced to the caller: `load_pvgis_data` returns the empty
DataFrame, contradicting the claim that the failure is not converted into an
empty result. -/
theorem c10_counterexample :
    load_pvgis_data none [(1, 0)] = ([], []) := rfl

/-- C10 amended: when pipeline construction fails, `load_pvgis_data` catches
the exception, displays the message in the UI, and returns an empty DataFrame
to the caller (which then detects emptiness and stops); the error is not
propagated with the offending field and value. -/
theorem c10_error_swallowed (timeline : List (ℕ × ℕ)) :
    load_pvgis_data none timeline = ([], []) := rfl

end SolarDashboard
